import Mathlib

/-!
Verification of the Invorto Python SDK client (`sdk/python/src/invorto/client.py`)
against its natural-language specification.

The embedding models the wire layer shallowly:
* JSON scalar values are `Prim` (numbers are kept as decimal
  mantissa/exponent pairs, `Decimal`, since no arithmetic is ever
  performed on them — only structural equality);
* a request body / query-parameter mapping is an association list
  `Mapping := List (String × FieldVal)` in insertion order, mirroring
  Python dict insertion-order semantics;
* pydantic models become structures with `Option` fields whose defaults
  match the Python declarations; `model_dump(exclude_none=True)` becomes
  an explicit `dump` function that emits a field iff it is not `none`,
  in declaration order.
-/

namespace Invorto

/-- A JSON decimal number, kept symbolic: value is `mantissa * 10 ^ (-exp10)`.
Only structural equality is ever used. -/
structure Decimal where
  mantissa : Int
  exp10 : Nat
  deriving DecidableEq

/-- Scalar JSON values appearing in request/response payloads. -/
inductive Prim where
  | null
  | bool (b : Bool)
  | int (n : Int)
  | num (d : Decimal)
  | str (s : String)
  deriving DecidableEq

/-- A value stored under a key of a request body or query mapping:
a scalar, a flat object (Python `Dict[str, Any]` such as `metadata`),
or a list of flat objects (such as `tools`). -/
inductive FieldVal where
  | prim (p : Prim)
  | obj (o : List (String × Prim))
  | objList (xs : List (List (String × Prim)))
  deriving DecidableEq

/-- A request body / query-parameter mapping, in insertion order. -/
abbrev Mapping := List (String × FieldVal)

/-- A value of a top-level response payload: either an ordinary field
value or a nested object mapping (the `config` object inside an `Agent`
payload). -/
inductive TopVal where
  | fld (v : FieldVal)
  | nested (m : Mapping)
  deriving DecidableEq

/-- A raw JSON response payload (one top-level object). -/
abbrev Payload := List (String × TopVal)

/-- `Direction(str, Enum)` from the source. -/
inductive Direction where
  | inbound
  | outbound
  deriving DecidableEq

/-- The wire string of a `Direction` member. -/
def Direction.value : Direction → String
  | .inbound => "inbound"
  | .outbound => "outbound"

/-- `AgentStatus(str, Enum)` from the source. -/
inductive AgentStatus where
  | active
  | inactive
  | draft
  deriving DecidableEq

/-- `CallStatus(str, Enum)` from the source. -/
inductive CallStatus where
  | created
  | ringing
  | answered
  | active
  | completed
  | failed
  deriving DecidableEq

/-- `AgentConfig(BaseModel)`: field names, optionality and defaults as in
the pydantic declaration. -/
structure AgentConfig where
  name : String
  prompt : String
  voice : Option String := none
  locale : Option String := some "en-IN"
  temperature : Option Decimal := some ⟨7, 1⟩
  model : Option String := some "gpt-4o-mini"
  max_tokens : Option Int := some 1000
  system_prompt : Option String := none
  tools : Option (List (List (String × Prim))) := none
  metadata : Option (List (String × Prim)) := none
  deriving DecidableEq

/-- `CallOptions(BaseModel)` from the source; `from_` carries wire alias
`"from"`. -/
structure CallOptions where
  agent_id : String
  «to» : String
  from_ : Option String := none
  direction : Direction := .outbound
  metadata : Option (List (String × Prim)) := none
  recording : Option Bool := some true
  transcription : Option Bool := some true
  deriving DecidableEq

/-- `ListOptions(BaseModel)` from the source. -/
structure ListOptions where
  page : Option Int := some 1
  limit : Option Int := some 50
  search : Option String := none
  status : Option String := none
  sort_by : Option String := none
  sort_order : Option String := some "desc"
  deriving DecidableEq

/-- `CallListOptions(ListOptions)` from the source: the inherited fields
followed by the subclass fields, `from_` again aliased to `"from"`. -/
structure CallListOptions extends ListOptions where
  agent_id : Option String := none
  from_ : Option String := none
  «to» : Option String := none
  deriving DecidableEq

/-- `Agent(BaseModel)` from the source. -/
structure Agent where
  id : String
  name : String
  config : AgentConfig
  status : AgentStatus
  tenant_id : String
  created_at : String
  updated_at : String
  stats : Option (List (String × Prim)) := none
  deriving DecidableEq

/-- One optional entry of a `model_dump(exclude_none=True)` result:
present iff the field is not `None`. -/
def optEntry (k : String) (f : α → FieldVal) (o : Option α) : Mapping :=
  match o with
  | none => []
  | some v => [(k, f v)]

/-- The keys of a mapping, in order. -/
def keysOf (m : Mapping) : List String := m.map Prod.fst

/-- Of a list of (key, present?) pairs, the keys marked present, in
order: the key set an omission-of-absent-values encoder must produce. -/
def presentKeys (pairs : List (String × Bool)) : List String :=
  (pairs.filter Prod.snd).map Prod.fst

/-- `AgentConfig.model_dump(exclude_none=True)`: every non-`None` field,
in declaration order, under its field name. -/
def AgentConfig.dump (c : AgentConfig) : Mapping :=
  [("name", .prim (.str c.name)), ("prompt", .prim (.str c.prompt))]
  ++ optEntry "voice" (fun v => .prim (.str v)) c.voice
  ++ optEntry "locale" (fun v => .prim (.str v)) c.locale
  ++ optEntry "temperature" (fun v => .prim (.num v)) c.temperature
  ++ optEntry "model" (fun v => .prim (.str v)) c.model
  ++ optEntry "max_tokens" (fun v => .prim (.int v)) c.max_tokens
  ++ optEntry "system_prompt" (fun v => .prim (.str v)) c.system_prompt
  ++ optEntry "tools" (fun v => .objList v) c.tools
  ++ optEntry "metadata" (fun v => .obj v) c.metadata

/-- `CallOptions.model_dump(exclude_none=True)`: note the `from_` field is
dumped under its INTERNAL name `"from_"` (pydantic dumps by field name,
not by alias). -/
def CallOptions.dump (o : CallOptions) : Mapping :=
  [("agent_id", .prim (.str o.agent_id)), ("to", .prim (.str o.«to»))]
  ++ optEntry "from_" (fun v => .prim (.str v)) o.from_
  ++ [("direction", .prim (.str o.direction.value))]
  ++ optEntry "metadata" (fun v => .obj v) o.metadata
  ++ optEntry "recording" (fun v => .prim (.bool v)) o.recording
  ++ optEntry "transcription" (fun v => .prim (.bool v)) o.transcription

/-- `ListOptions.model_dump(exclude_none=True)`. -/
def ListOptions.dump (o : ListOptions) : Mapping :=
  optEntry "page" (fun v => .prim (.int v)) o.page
  ++ optEntry "limit" (fun v => .prim (.int v)) o.limit
  ++ optEntry "search" (fun v => .prim (.str v)) o.search
  ++ optEntry "status" (fun v => .prim (.str v)) o.status
  ++ optEntry "sort_by" (fun v => .prim (.str v)) o.sort_by
  ++ optEntry "sort_order" (fun v => .prim (.str v)) o.sort_order

/-- `CallListOptions.model_dump(exclude_none=True)`: inherited fields
first, then the subclass fields, `from_` under its internal name. -/
def CallListOptions.dump (o : CallListOptions) : Mapping :=
  o.toListOptions.dump
  ++ optEntry "agent_id" (fun v => .prim (.str v)) o.agent_id
  ++ optEntry "from_" (fun v => .prim (.str v)) o.from_
  ++ optEntry "to" (fun v => .prim (.str v)) o.«to»

/-- The JSON body sent by `InvortoClient.create_call`:
`call_data = options.model_dump(exclude_none=True)` and then, when
`options.from_` is truthy (non-`None` and non-empty),
`call_data["from"] = options.from_` appends the alias key — without
removing the `"from_"` key the dump produced. -/
def createCallBody (o : CallOptions) : Mapping :=
  let call_data := o.dump
  match o.from_ with
  | some s => if s = "" then call_data else call_data ++ [("from", .prim (.str s))]
  | none => call_data

/-- The query-parameter mapping sent by `InvortoClient.list_agents`. -/
def listAgentsParams (o : ListOptions) : Mapping := o.dump

/-- The query-parameter mapping sent by `InvortoClient.list_calls`:
after the dump, `params["from"] = params.pop("from_")` removes the
internal key and appends the alias key (the `"from_"` key is present in
the dump exactly when the field is not `None`). -/
def listCallsParams (o : CallListOptions) : Mapping :=
  let params := o.dump
  match o.from_ with
  | some s => params.filter (fun kv => kv.1 ≠ "from_") ++ [("from", .prim (.str s))]
  | none => params

/-- A character removed by `re.sub(r'[\s\-\(\)]', '', ...)`: ASCII
whitespace (Python `\s`), hyphen, and parentheses. -/
def isStrippedChar (c : Char) : Bool :=
  c = ' ' || c = '\t' || c = '\n' || c = '\x0b' || c = '\x0c' || c = '\r'
    || c = '-' || c = '(' || c = ')'

/-- `re.sub(r'[\s\-\(\)]', '', phone_number)`: the cleaned phone string. -/
def cleanPhone (s : String) : String :=
  String.mk (s.data.filter (fun c => !isStrippedChar c))

/-- The anchored regex tail `[1-9][\d]{0,15}$`: a first digit in 1–9
followed by at most 15 further digits, consuming the whole input. -/
def matchesDigits : List Char → Bool
  | [] => false
  | d :: rest =>
      decide ('1' ≤ d ∧ d ≤ '9') && rest.all Char.isDigit && decide (rest.length ≤ 15)

/-- `InvortoClient.validate_phone_number`: cleans the input, then matches
it against `^[\+]?[1-9][\d]{0,15}$` (the optional `+` is consumed first;
since `[1-9]` can never match `'+'`, the regex is deterministic, and the
empty string never matches). -/
def validate_phone_number (phone_number : String) : Bool :=
  let cleaned := cleanPhone phone_number
  match cleaned.data with
  | [] => false
  | c :: rest => if c = '+' then matchesDigits rest else matchesDigits (c :: rest)

/-- The validation pattern exactly as the claim states it: the cleaned
string consists of an optional leading `'+'`, a first digit in 1–9, and
up to 15 further digits. -/
def ClaimedPhonePattern (cs : List Char) : Prop :=
  ∃ t : List Char, (cs = t ∨ cs = '+' :: t)
    ∧ ∃ d r, t = d :: r ∧ '1' ≤ d ∧ d ≤ '9'
        ∧ (∀ c ∈ r, c.isDigit = true) ∧ r.length ≤ 15

/-- `InvortoClient.format_phone_number`: the source's if-chain, with
`startswith` rendered on the character list of the cleaned string.
Note the fall-through branch returns the ORIGINAL `phone_number`, while
the `'+'` branch returns the CLEANED string, and the third branch tests
the literal prefix `'91'` (not the digits of `country_code`). -/
def format_phone_number (phone_number : String) (country_code : String := "+91") : String :=
  let cleaned := cleanPhone phone_number
  if cleaned.data.head? = some '+' then cleaned
  else if cleaned.data.head? = some '0' then country_code ++ String.mk cleaned.data.tail
  else if cleaned.data.take 2 = ['9', '1'] ∧ cleaned.data.length = 12 then "+" ++ cleaned
  else if cleaned.data.length = 10 then country_code ++ cleaned
  else phone_number

/-- The formatting rule exactly as the claim states it, for comparison
with the source's `format_phone_number`: the claim reads the third
precedence case generically as "exactly the country-code digits
followed by 10 digits with no '+'", the country-code digits being those
of the configured `country_code` after its leading `'+'`. -/
def claimedFormatPhone (phone_number : String) (country_code : String := "+91") : String :=
  let cleaned := cleanPhone phone_number
  let ccd := country_code.data.dropWhile (fun c => c = '+')
  if cleaned.data.head? = some '+' then phone_number
  else if cleaned.data.head? = some '0' then country_code ++ String.mk cleaned.data.tail
  else if cleaned.data.take ccd.length = ccd ∧ (cleaned.data.drop ccd.length).length = 10
      ∧ (cleaned.data.drop ccd.length).all Char.isDigit then "+" ++ cleaned
  else if cleaned.data.length = 10 ∧ cleaned.data.all Char.isDigit then country_code ++ cleaned
  else phone_number

/-- `base_url.rstrip("/")`: remove every trailing `'/'`. -/
def rstripSlashes (s : String) : String :=
  String.mk ((s.data.reverse.dropWhile (fun c => c = '/')).reverse)

/-- `InvortoClient` construction state: `__init__` stores
`base_url.rstrip("/")`. -/
structure InvortoClient where
  api_key : String
  base_url : String
  tenant_id : Option String := none

/-- `InvortoClient.__init__`. -/
def InvortoClient.init (api_key : String) (base_url : String := "https://api.invorto.ai")
    (tenant_id : Option String := none) : InvortoClient :=
  { api_key := api_key, base_url := rstripSlashes base_url, tenant_id := tenant_id }

/-- The URL built by `_make_request`: `f"{self.base_url}{endpoint}"`. -/
def InvortoClient.requestUrl (c : InvortoClient) (endpoint : String) : String :=
  c.base_url ++ endpoint

/-- The client-visible failure taxonomy (§7 of the source's design):
transport failure (non-success HTTP status, carrying it), network-level
failure (connection/timeout/unparsable body), schema-validation failure
(carrying the offending field locations). -/
inductive ClientError where
  | transportError (status : Nat)
  | networkError
  | validationError (locs : List String)
  deriving DecidableEq

/-- One HTTP exchange outcome as the client sees it: the final status
code and the parsed JSON body (`none` models a body on which
`response.json()` fails). -/
structure HttpResponse where
  status : Nat
  body : Option Payload := none
  deriving DecidableEq

/-- `InvortoClient._make_request`: `response.raise_for_status()` raises
an `HTTPError` carrying the status exactly when `400 ≤ status < 600`,
before the body is ever parsed; only then is `response.json()` run,
which either yields the payload or fails below the HTTP semantic layer. -/
def makeRequest (resp : HttpResponse) : Except ClientError Payload :=
  if 400 ≤ resp.status ∧ resp.status < 600 then .error (.transportError resp.status)
  else
    match resp.body with
    | some payload => .ok payload
    | none => .error .networkError

instance [DecidableEq ε] [DecidableEq α] : DecidableEq (Except ε α) := fun x y =>
  match x, y with
  | .error e1, .error e2 =>
      if h : e1 = e2 then isTrue (congrArg Except.error h)
      else isFalse (fun he => h (Except.error.inj he))
  | .ok a1, .ok a2 =>
      if h : a1 = a2 then isTrue (congrArg Except.ok h)
      else isFalse (fun he => h (Except.ok.inj he))
  | .error _, .ok _ => isFalse (fun he => Except.noConfusion he)
  | .ok _, .error _ => isFalse (fun he => Except.noConfusion he)

/-- First binding of a key in a body/query mapping. -/
def getKey (m : Mapping) (k : String) : Option FieldVal :=
  (m.find? (fun kv => kv.1 = k)).map Prod.snd

/-- First binding of a key in a response payload. -/
def getTop (p : Payload) (k : String) : Option TopVal :=
  (p.find? (fun kv => kv.1 = k)).map Prod.snd

/-- Error-accumulating applicative combination: pydantic validation
reports every offending field location, not only the first. -/
def exAp (f : Except (List String) (α → β)) (x : Except (List String) α) :
    Except (List String) β :=
  match f, x with
  | .ok g, .ok a => .ok (g a)
  | .error e1, .error e2 => .error (e1 ++ e2)
  | .error e1, .ok _ => .error e1
  | .ok _, .error e2 => .error e2

/-- A required `str` field of a nested mapping. -/
def reqStr (m : Mapping) (k : String) : Except (List String) String :=
  match getKey m k with
  | some (.prim (.str s)) => .ok s
  | _ => .error [k]

/-- An `Optional[str]` field with its declared default. -/
def optStr (m : Mapping) (k : String) (dflt : Option String) :
    Except (List String) (Option String) :=
  match getKey m k with
  | none => .ok dflt
  | some (.prim .null) => .ok none
  | some (.prim (.str s)) => .ok (some s)
  | some _ => .error [k]

/-- An `Optional[float]` field with its declared default (an integer
JSON number coerces to a float). -/
def optNum (m : Mapping) (k : String) (dflt : Option Decimal) :
    Except (List String) (Option Decimal) :=
  match getKey m k with
  | none => .ok dflt
  | some (.prim .null) => .ok none
  | some (.prim (.num d)) => .ok (some d)
  | some (.prim (.int n)) => .ok (some ⟨n, 0⟩)
  | some _ => .error [k]

/-- An `Optional[int]` field with its declared default. -/
def optInt (m : Mapping) (k : String) (dflt : Option Int) :
    Except (List String) (Option Int) :=
  match getKey m k with
  | none => .ok dflt
  | some (.prim .null) => .ok none
  | some (.prim (.int n)) => .ok (some n)
  | some _ => .error [k]

/-- An `Optional[Dict[str, Any]]` field (default `None`). -/
def optObj (m : Mapping) (k : String) :
    Except (List String) (Option (List (String × Prim))) :=
  match getKey m k with
  | none => .ok none
  | some (.prim .null) => .ok none
  | some (.obj o) => .ok (some o)
  | some _ => .error [k]

/-- An `Optional[List[Dict[str, Any]]]` field (default `None`). -/
def optObjList (m : Mapping) (k : String) :
    Except (List String) (Option (List (List (String × Prim)))) :=
  match getKey m k with
  | none => .ok none
  | some (.prim .null) => .ok none
  | some (.objList xs) => .ok (some xs)
  | some _ => .error [k]

/-- Pydantic validation of `AgentConfig(**mapping)`: each declared field
validated against its annotation, missing optional fields replaced by
their declared defaults, extra keys ignored. -/
def decodeAgentConfig (m : Mapping) : Except (List String) AgentConfig :=
  exAp (exAp (exAp (exAp (exAp (exAp (exAp (exAp (exAp (exAp
    (.ok AgentConfig.mk)
    (reqStr m "name")) (reqStr m "prompt")) (optStr m "voice" none))
    (optStr m "locale" (some "en-IN"))) (optNum m "temperature" (some ⟨7, 1⟩)))
    (optStr m "model" (some "gpt-4o-mini"))) (optInt m "max_tokens" (some 1000)))
    (optStr m "system_prompt" none)) (optObjList m "tools")) (optObj m "metadata")

/-- A required `str` field of a top-level payload. -/
def reqStrTop (p : Payload) (k : String) : Except (List String) String :=
  match getTop p k with
  | some (.fld (.prim (.str s))) => .ok s
  | _ => .error [k]

/-- The wire strings of `AgentStatus` members. -/
def parseAgentStatus : String → Option AgentStatus
  | "active" => some .active
  | "inactive" => some .inactive
  | "draft" => some .draft
  | _ => none

/-- The nested `config` field of an `Agent` payload; nested validation
failures carry the `config.`-prefixed locations. -/
def configField (p : Payload) : Except (List String) AgentConfig :=
  match getTop p "config" with
  | some (.nested m) =>
      match decodeAgentConfig m with
      | .ok c => .ok c
      | .error locs => .error (locs.map (fun l => "config." ++ l))
  | _ => .error ["config"]

/-- The `status` field of an `Agent` payload. -/
def statusField (p : Payload) : Except (List String) AgentStatus :=
  match getTop p "status" with
  | some (.fld (.prim (.str s))) =>
      match parseAgentStatus s with
      | some st => .ok st
      | none => .error ["status"]
  | _ => .error ["status"]

/-- The optional `stats` field of an `Agent` payload. -/
def statsField (p : Payload) : Except (List String) (Option (List (String × Prim))) :=
  match getTop p "stats" with
  | none => .ok none
  | some (.fld (.prim .null)) => .ok none
  | some (.fld (.obj o)) => .ok (some o)
  | _ => .error ["stats"]

/-- Pydantic validation of `Agent(**data)`. -/
def decodeAgent (p : Payload) : Except (List String) Agent :=
  exAp (exAp (exAp (exAp (exAp (exAp (exAp (exAp
    (.ok Agent.mk)
    (reqStrTop p "id")) (reqStrTop p "name"))
    (configField p)) (statusField p)) (reqStrTop p "tenant_id"))
    (reqStrTop p "created_at")) (reqStrTop p "updated_at")) (statsField p)

/-- `InvortoClient.get_agent`: `_make_request` then `Agent(**data)`, a
pydantic failure surfacing as the schema-validation error. -/
def get_agent (resp : HttpResponse) : Except ClientError Agent :=
  (makeRequest resp).bind (fun payload =>
    match decodeAgent payload with
    | .ok a => .ok a
    | .error locs => .error (.validationError locs))

/-- An `Agent` payload whose `config` field is exactly the encoded
mapping of `c` — a server echo that does not alter input — with the
server-owned fields chosen by the server. -/
def echoAgentPayload (idv nm : String) (c : AgentConfig) (statusStr : String)
    (tid ca ua : String) : Payload :=
  [("id", .fld (.prim (.str idv))), ("name", .fld (.prim (.str nm))),
   ("config", .nested c.dump), ("status", .fld (.prim (.str statusStr))),
   ("tenant_id", .fld (.prim (.str tid))), ("created_at", .fld (.prim (.str ca))),
   ("updated_at", .fld (.prim (.str ua)))]

/-- The sequential batch loop shared by `create_multiple_agents` and
`create_multiple_calls`, parametrized by what one create call returns
for one input. First component: the inputs actually issued, in order;
second component: the aggregated result list, or the first raised error. -/
def createSequentially (call : α → Except ClientError β) :
    List α → List α × Except ClientError (List β)
  | [] => ([], .ok [])
  | c :: rest =>
    match call c with
    | .error e => ([c], .error e)
    | .ok a =>
      let r := createSequentially call rest
      (c :: r.1, r.2.map (fun xs => a :: xs))

/-- `InvortoClient.create_multiple_agents`. -/
def create_multiple_agents (call : AgentConfig → Except ClientError Agent)
    (configs : List AgentConfig) : List AgentConfig × Except ClientError (List Agent) :=
  createSequentially call configs

/-- `InvortoClient.create_multiple_calls`. -/
def create_multiple_calls (call : CallOptions → Except ClientError Payload)
    (opts : List CallOptions) : List CallOptions × Except ClientError (List Payload) :=
  createSequentially call opts

/-- A concrete per-item create behavior used to exercise the batch
loop: it fails exactly on input 2. -/
def witnessCall : Nat → Except ClientError Nat :=
  fun n => if n = 2 then .error .networkError else .ok (n + 1)

/-- `loop.run_in_executor(None, f, a)` as awaited by every
`AsyncInvortoClient` coroutine: the identical blocking callable runs on
a worker, and the awaited result is exactly that worker's result. -/
def runInExecutor (f : α → β) (a : α) : β := f a

/-- `AsyncInvortoClient.get_agent_async`. -/
def get_agent_async (resp : HttpResponse) : Except ClientError Agent :=
  runInExecutor get_agent resp

/-- The operation names exposed by the synchronous façade
`InvortoClient` (§4.5: lifecycle operations, aggregates, pure phone
utilities, health/metrics, batch helpers). -/
def syncFacadeOps : List String :=
  ["create_agent", "get_agent", "list_agents", "update_agent", "delete_agent",
   "create_call", "get_call", "list_calls", "update_call_status",
   "get_call_timeline", "get_call_artifacts", "get_tenant_usage",
   "get_call_analytics", "validate_phone_number", "format_phone_number",
   "health_check", "get_metrics", "create_multiple_agents", "create_multiple_calls"]

/-- The coroutine names exposed by `AsyncInvortoClient`. -/
def asyncClientOps : List String :=
  ["create_agent_async", "get_agent_async", "list_agents_async",
   "create_call_async", "get_call_async", "list_calls_async",
   "update_call_status_async", "get_call_timeline_async",
   "get_call_artifacts_async", "get_tenant_usage_async",
   "get_call_analytics_async", "update_agent_async", "delete_agent_async",
   "health_check_async", "get_metrics_async"]

/-- The façade operations that do have non-blocking mirrors: every
single-request operation (all except the two batch helpers and the two
pure phone utilities). -/
def mirroredOps : List String :=
  ["create_agent", "get_agent", "list_agents", "update_agent", "delete_agent",
   "create_call", "get_call", "list_calls", "update_call_status",
   "get_call_timeline", "get_call_artifacts", "get_tenant_usage",
   "get_call_analytics", "health_check", "get_metrics"]

/-! ## Helper lemmas -/

theorem keysOf_append (a b : Mapping) : keysOf (a ++ b) = keysOf a ++ keysOf b :=
  List.map_append _ a b

theorem mem_keysOf_optEntry {k' k : String} {f : α → FieldVal} {o : Option α} :
    k' ∈ keysOf (optEntry k f o) ↔ k' = k ∧ o.isSome = true := by
  cases o <;> simp [optEntry, keysOf]

theorem mem_optEntry_val {k : String} {f : α → FieldVal} {o : Option α}
    {kv : String × FieldVal} (h : kv ∈ optEntry k f o) : ∃ v, kv.2 = f v := by
  cases o with
  | none => simp [optEntry] at h
  | some v =>
      simp [optEntry] at h
      exact ⟨v, by rw [h]⟩

/-! ## C1 — wire aliasing of the `from` field -/

/-- C1: at the concrete input `CallOptions(agent_id="ag_1",
to="+919876543210", from="+918888888888")`, the `create_call` wire body
contains the alias key `"from"` but ALSO retains the internal key
`"from_"` produced by `model_dump` (the source adds the alias without
removing the dump's key), while `list_calls` pops the internal key as
the claim requires. The claim fails on `create_call`. -/
theorem C1_create_call_body_keeps_internal_key :
    "from" ∈ keysOf (createCallBody
      { agent_id := "ag_1", «to» := "+919876543210", from_ := some "+918888888888" })
    ∧ "from_" ∈ keysOf (createCallBody
      { agent_id := "ag_1", «to» := "+919876543210", from_ := some "+918888888888" })
    ∧ "from" ∈ keysOf (listCallsParams { from_ := some "+918888888888" })
    ∧ "from_" ∉ keysOf (listCallsParams { from_ := some "+918888888888" }) := by
  decide

/-! ## C2 — default list query parameters -/

/-- C2 counterexample: with the defaults and no other filters, the
query mapping of `list_agents` also contains the key `"sort_order"`
(whose pydantic default is `"desc"`, not `None`), so it does not contain
exactly the two keys `"page"` and `"limit"`. -/
theorem C2_counterexample :
    "sort_order" ∈ keysOf (listAgentsParams {})
    ∧ "sort_order" ≠ "page" ∧ "sort_order" ≠ "limit" := by
  decide

/-- C2 (amended): when `list_agents` (or `list_calls`) is invoked with
no options, the query-parameter mapping contains exactly the three keys
`"page"`, `"limit"` and `"sort_order"`, in that order. -/
theorem C2_default_list_params_keys :
    keysOf (listAgentsParams {}) = ["page", "limit", "sort_order"]
    ∧ keysOf (listCallsParams {}) = ["page", "limit", "sort_order"] := by
  decide

/-! ## C4 — phone-number validation -/

theorem matchesDigits_iff (t : List Char) :
    matchesDigits t = true ↔
      ∃ d r, t = d :: r ∧ '1' ≤ d ∧ d ≤ '9'
        ∧ (∀ c ∈ r, c.isDigit = true) ∧ r.length ≤ 15 := by
  cases t with
  | nil =>
      constructor
      · intro hx; exact Bool.noConfusion hx
      · rintro ⟨d, r, htd, -⟩; exact List.noConfusion htd
  | cons d r =>
      constructor
      · intro hx
        simp only [matchesDigits, Bool.and_eq_true, decide_eq_true_eq,
          List.all_eq_true] at hx
        exact ⟨d, r, rfl, hx.1.1.1, hx.1.1.2, hx.1.2, hx.2⟩
      · intro hx
        obtain ⟨d', r', heq, h1, h2, h3, h4⟩ := hx
        injection heq with hd hr
        subst hd; subst hr
        simp only [matchesDigits, Bool.and_eq_true, decide_eq_true_eq,
          List.all_eq_true]
        exact ⟨⟨⟨h1, h2⟩, h3⟩, h4⟩

/-- C4: `validate_phone_number` returns `true` exactly when the input,
after removing whitespace, hyphens and parentheses, consists of an
optional leading `'+'`, a first digit in 1–9, and up to 15 further
digits; in particular it accepts `"+919876543210"` and
`"(987) 654-3210"` and rejects `"abc123"`. -/
theorem C4_validate_phone_number_pattern :
    (∀ s : String, validate_phone_number s = true ↔ ClaimedPhonePattern (cleanPhone s).data)
    ∧ validate_phone_number "+919876543210" = true
    ∧ validate_phone_number "(987) 654-3210" = true
    ∧ validate_phone_number "abc123" = false := by
  refine ⟨?_, by decide, by decide, by decide⟩
  intro s
  simp only [validate_phone_number, ClaimedPhonePattern]
  cases h : (cleanPhone s).data with
  | nil =>
      constructor
      · intro hx; exact Bool.noConfusion hx
      · rintro ⟨t, ht, d, r, htd, -⟩
        rcases ht with rfl | ht
        · exact List.noConfusion htd
        · exact List.noConfusion ht
  | cons c rest =>
      show (if c = '+' then matchesDigits rest else matchesDigits (c :: rest)) = true ↔ _
      by_cases hc : c = '+'
      · subst hc
        rw [if_pos rfl, matchesDigits_iff]
        constructor
        · rintro ⟨d, r, hdr, h1, h2, h3, h4⟩
          exact ⟨rest, Or.inr rfl, d, r, hdr, h1, h2, h3, h4⟩
        · rintro ⟨t, ht, d, r, htd, h1, h2, h3, h4⟩
          rcases ht with ht | ht
          · subst ht
            injection htd with hd hr
            subst hd
            exact absurd h1 (by decide)
          · injection ht with hplus hr
            subst hr
            exact ⟨d, r, htd, h1, h2, h3, h4⟩
      · rw [if_neg hc, matchesDigits_iff]
        constructor
        · rintro ⟨d, r, htd, h1, h2, h3, h4⟩
          exact ⟨c :: rest, Or.inl rfl, d, r, htd, h1, h2, h3, h4⟩
        · rintro ⟨t, ht, d, r, htd, h1, h2, h3, h4⟩
          rcases ht with ht | ht
          · subst ht
            exact ⟨d, r, htd, h1, h2, h3, h4⟩
          · injection ht with hc' hr
            exact absurd hc' hc

/-- C4 witness: the characterization applied at `"+919876543210"`. -/
theorem C4_witness :
    validate_phone_number "+919876543210" = true ↔
      ClaimedPhonePattern (cleanPhone "+919876543210").data :=
  C4_validate_phone_number_pattern.1 "+919876543210"

/-! ## C3 — phone-number formatting -/

/-- C3 counterexample: with configured country code `"+1"`, the cleaned
input `"919876543210"` matches none of the claim's cases (it is neither
the country-code digit `'1'` followed by 10 digits, nor exactly 10
digits long), so the claim returns it unchanged; the source's third
branch instead tests the LITERAL prefix `"91"` together with total
length 12 — independently of the configured country code — and prepends
`'+'`. -/
theorem C3_counterexample :
    format_phone_number "919876543210" "+1" = "+919876543210"
    ∧ claimedFormatPhone "919876543210" "+1" = "919876543210"
    ∧ format_phone_number "919876543210" "+1" ≠ claimedFormatPhone "919876543210" "+1" := by
  decide

/-- C3 (amended): after stripping whitespace/hyphens/parentheses,
`format_phone_number` applies exactly this precedence: a cleaned input
prefixed with `'+'` returns the CLEANED string; a cleaned input with a
leading `'0'` has it stripped and the country code prepended; a cleaned
input starting with the literal characters `"91"` and of total length
exactly 12 — whatever the configured country code, with no digit check
on the remainder — gets `'+'` prepended; a cleaned input of length
exactly 10 (again, no digit check) gets the country code prepended; any
other input is returned unchanged (the ORIGINAL, uncleaned input). The
claim's five concrete examples all hold with country code `"+91"`. -/
theorem C3_format_phone_number_precedence :
    (∀ s cc : String,
      ((cleanPhone s).data.head? = some '+' → format_phone_number s cc = cleanPhone s)
      ∧ ((cleanPhone s).data.head? = some '0' →
          format_phone_number s cc = cc ++ String.mk (cleanPhone s).data.tail)
      ∧ (∀ t : List Char, (cleanPhone s).data = '9' :: '1' :: t → t.length = 10 →
          format_phone_number s cc = "+" ++ cleanPhone s)
      ∧ ((cleanPhone s).data.head? ≠ some '+' → (cleanPhone s).data.head? ≠ some '0' →
          (cleanPhone s).data.length = 10 → format_phone_number s cc = cc ++ cleanPhone s)
      ∧ ((cleanPhone s).data.head? ≠ some '+' → (cleanPhone s).data.head? ≠ some '0' →
          ¬((cleanPhone s).data.take 2 = ['9', '1'] ∧ (cleanPhone s).data.length = 12) →
          (cleanPhone s).data.length ≠ 10 → format_phone_number s cc = s))
    ∧ format_phone_number "+919876543210" "+91" = "+919876543210"
    ∧ format_phone_number "09876543210" "+91" = "+919876543210"
    ∧ format_phone_number "919876543210" "+91" = "+919876543210"
    ∧ format_phone_number "9876543210" "+91" = "+919876543210"
    ∧ format_phone_number "123" "+91" = "123" := by
  refine ⟨?_, by decide, by decide, by decide, by decide, by decide⟩
  intro s cc
  refine ⟨?_, ?_, ?_, ?_, ?_⟩
  · intro h
    simp only [format_phone_number]
    rw [if_pos h]
  · intro h
    simp only [format_phone_number]
    rw [if_neg (by rw [h]; decide), if_pos h]
  · intro t h ht
    simp only [format_phone_number]
    rw [if_neg (by rw [h]; simp only [List.head?_cons]; decide),
      if_neg (by rw [h]; simp only [List.head?_cons]; decide),
      if_pos (by rw [h]; simp [List.length_cons, ht])]
  · intro h1 h2 h3
    simp only [format_phone_number]
    rw [if_neg h1, if_neg h2, if_neg (by simp [h3]), if_pos h3]
  · intro h1 h2 h3 h4
    simp only [format_phone_number]
    rw [if_neg h1, if_neg h2, if_neg h3, if_neg h4]

/-- C3 witness: the second precedence rule applied at
`("09876543210", "+91")`. -/
theorem C3_witness :
    format_phone_number "09876543210" "+91"
      = "+91" ++ String.mk (cleanPhone "09876543210").data.tail :=
  (C3_format_phone_number_precedence.1 "09876543210" "+91").2.1 (by decide)

/-! ## C10 — base-URL normalization -/

theorem head?_dropWhile_not (p : α → Bool) (l : List α) (a : α)
    (h : (l.dropWhile p).head? = some a) : p a = false := by
  induction l with
  | nil => exact Option.noConfusion h
  | cons x xs ih =>
      rw [List.dropWhile_cons] at h
      by_cases hx : p x
      · rw [if_pos hx] at h; exact ih h
      · rw [if_neg hx] at h
        simp only [List.head?_cons, Option.some.injEq] at h
        subst h
        exact Bool.eq_false_iff.mpr hx

/-- C10: the client stores `base_url` with every trailing `'/'` removed
— the stored value never ends in `'/'`, and the original `base_url` is
the stored value followed by some run of `'/'` — and every operation's
request URL is exactly the stored base concatenated with the
operation's path. -/
theorem C10_base_url_stripping :
    ∀ base : String,
      (∀ (key : String) (tenant : Option String) (endpoint : String),
        (InvortoClient.init key base tenant).requestUrl endpoint
          = rstripSlashes base ++ endpoint)
      ∧ (rstripSlashes base).data.getLast? ≠ some '/'
      ∧ ∃ k : Nat, base.data = (rstripSlashes base).data ++ List.replicate k '/' := by
  intro base
  refine ⟨fun key tenant endpoint => rfl, ?_, ?_⟩
  · intro hcon
    have hcon' : ((base.data.reverse.dropWhile (fun c => c = '/')).reverse).getLast?
        = some '/' := hcon
    rw [List.getLast?_reverse] at hcon'
    have hfalse := head?_dropWhile_not _ _ _ hcon'
    simp at hfalse
  · refine ⟨(base.data.reverse.takeWhile (fun c => c = '/')).length, ?_⟩
    have h2 : base.data.reverse.takeWhile (fun c => c = '/')
        = List.replicate (base.data.reverse.takeWhile (fun c => c = '/')).length '/' :=
      List.eq_replicate_length.mpr (fun b hb => by simpa using List.mem_takeWhile_imp hb)
    show base.data = (base.data.reverse.dropWhile (fun c => c = '/')).reverse
      ++ List.replicate (base.data.reverse.takeWhile (fun c => c = '/')).length '/'
    calc base.data = base.data.reverse.reverse := (List.reverse_reverse _).symm
      _ = (base.data.reverse.takeWhile (fun c => c = '/')
            ++ base.data.reverse.dropWhile (fun c => c = '/')).reverse := by
            rw [List.takeWhile_append_dropWhile]
      _ = (base.data.reverse.dropWhile (fun c => c = '/')).reverse
            ++ (base.data.reverse.takeWhile (fun c => c = '/')).reverse := by
            rw [List.reverse_append]
      _ = (base.data.reverse.dropWhile (fun c => c = '/')).reverse
            ++ List.replicate (base.data.reverse.takeWhile (fun c => c = '/')).length '/' := by
            conv_lhs => rw [h2]
            rw [List.reverse_replicate]

/-- C10 witness: at `base_url = "https://x//"`, the request URL of
`"/v1/agents"` is the stripped base concatenated with the path. -/
theorem C10_witness :
    (InvortoClient.init "k" "https://x//" none).requestUrl "/v1/agents"
      = rstripSlashes "https://x//" ++ "/v1/agents" :=
  (C10_base_url_stripping "https://x//").1 "k" none "/v1/agents"

/-! ## C6 — omission of absent values -/

theorem keysOf_optEntry (k : String) (f : α → FieldVal) (o : Option α) :
    keysOf (optEntry k f o) = if o.isSome then [k] else [] := by
  cases o <;> rfl

theorem map_fst_optEntry (k : String) (f : α → FieldVal) (o : Option α) :
    (optEntry k f o).map Prod.fst = if o.isSome then [k] else [] := by
  cases o <;> rfl

theorem presentKeys_cons (k : String) (b : Bool) (rest : List (String × Bool)) :
    presentKeys ((k, b) :: rest) = (if b then [k] else []) ++ presentKeys rest := by
  cases b <;> simp [presentKeys, List.filter_cons]

theorem presentKeys_nil : presentKeys [] = [] := rfl

theorem filter_ne_optEntry {k k' : String} (f : α → FieldVal) (o : Option α)
    (h : k ≠ k') :
    (optEntry k f o).filter (fun kv => kv.1 ≠ k') = optEntry k f o := by
  cases o <;> simp [optEntry, h]

theorem filter_eq_optEntry {k : String} (f : α → FieldVal) (o : Option α) :
    (optEntry k f o).filter (fun kv => kv.1 ≠ k) = [] := by
  cases o <;> simp [optEntry]

theorem notNull_optEntry {k : String} {f : α → FieldVal}
    (hf : ∀ v, f v ≠ FieldVal.prim .null) (o : Option α) :
    ∀ kv ∈ optEntry k f o, kv.2 ≠ FieldVal.prim .null := by
  intro kv hkv
  obtain ⟨v, hv⟩ := mem_optEntry_val hkv
  rw [hv]; exact hf v

theorem agentConfig_dump_not_null (c : AgentConfig) :
    ∀ kv ∈ c.dump, kv.2 ≠ FieldVal.prim .null := by
  intro kv hkv
  simp only [AgentConfig.dump, List.mem_append, List.mem_cons,
    List.not_mem_nil, or_false] at hkv
  rcases hkv with ((((((((h | h) | h) | h) | h) | h) | h) | h) | h) <;>
    first
      | (rcases h with rfl | rfl <;> simp)
      | (obtain ⟨v, hv⟩ := mem_optEntry_val h; rw [hv]; simp)

theorem callOptions_dump_not_null (o : CallOptions) :
    ∀ kv ∈ o.dump, kv.2 ≠ FieldVal.prim .null := by
  intro kv hkv
  simp only [CallOptions.dump, List.mem_append, List.mem_cons,
    List.not_mem_nil, or_false] at hkv
  rcases hkv with ((((h | h) | h) | h) | h) | h <;>
    first
      | (rcases h with rfl | rfl <;> simp)
      | (obtain ⟨v, hv⟩ := mem_optEntry_val h; rw [hv]; simp)

theorem createCallBody_not_null (o : CallOptions) :
    ∀ kv ∈ createCallBody o, kv.2 ≠ FieldVal.prim .null := by
  intro kv hkv
  unfold createCallBody at hkv
  split at hkv
  · split at hkv
    · exact callOptions_dump_not_null o kv hkv
    · rcases List.mem_append.mp hkv with h | h
      · exact callOptions_dump_not_null o kv h
      · simp only [List.mem_singleton] at h
        rw [h]; simp
  · exact callOptions_dump_not_null o kv hkv

theorem listOptions_dump_not_null (lo : ListOptions) :
    ∀ kv ∈ lo.dump, kv.2 ≠ FieldVal.prim .null := by
  intro kv hkv
  simp only [ListOptions.dump, List.mem_append] at hkv
  rcases hkv with ((((h | h) | h) | h) | h) | h <;>
    · obtain ⟨v, hv⟩ := mem_optEntry_val h; rw [hv]; simp

theorem callListOptions_dump_not_null (co : CallListOptions) :
    ∀ kv ∈ co.dump, kv.2 ≠ FieldVal.prim .null := by
  intro kv hkv
  simp only [CallListOptions.dump, List.mem_append] at hkv
  rcases hkv with ((h | h) | h) | h
  · exact listOptions_dump_not_null co.toListOptions kv h
  all_goals (obtain ⟨v, hv⟩ := mem_optEntry_val h; rw [hv]; simp)

theorem listCallsParams_not_null (co : CallListOptions) :
    ∀ kv ∈ listCallsParams co, kv.2 ≠ FieldVal.prim .null := by
  intro kv hkv
  unfold listCallsParams at hkv
  split at hkv
  · rcases List.mem_append.mp hkv with h | h
    · exact callListOptions_dump_not_null co kv (List.mem_filter.mp h).1
    · simp only [List.mem_singleton] at h
      rw [h]; simp
  · exact callListOptions_dump_not_null co kv hkv

theorem agentConfig_dump_keys (c : AgentConfig) :
    keysOf c.dump = ["name", "prompt"] ++ presentKeys
      [("voice", c.voice.isSome), ("locale", c.locale.isSome),
       ("temperature", c.temperature.isSome), ("model", c.model.isSome),
       ("max_tokens", c.max_tokens.isSome), ("system_prompt", c.system_prompt.isSome),
       ("tools", c.tools.isSome), ("metadata", c.metadata.isSome)] := by
  simp [AgentConfig.dump, keysOf, keysOf_optEntry, map_fst_optEntry, presentKeys_cons, presentKeys_nil]

theorem callOptions_dump_keys (o : CallOptions) :
    keysOf o.dump = ["agent_id", "to"]
      ++ presentKeys [("from_", o.from_.isSome)] ++ ["direction"]
      ++ presentKeys [("metadata", o.metadata.isSome), ("recording", o.recording.isSome),
          ("transcription", o.transcription.isSome)] := by
  simp [CallOptions.dump, keysOf, keysOf_optEntry, map_fst_optEntry, presentKeys_cons, presentKeys_nil]

theorem createCallBody_keys (o : CallOptions) :
    keysOf (createCallBody o) = ["agent_id", "to"]
      ++ presentKeys [("from_", o.from_.isSome)] ++ ["direction"]
      ++ presentKeys [("metadata", o.metadata.isSome), ("recording", o.recording.isSome),
          ("transcription", o.transcription.isSome)]
      ++ presentKeys [("from", o.from_.any (fun s => !(s = "")))] := by
  unfold createCallBody
  cases hfo : o.from_ with
  | none =>
      simp [CallOptions.dump, keysOf, keysOf_optEntry, map_fst_optEntry, presentKeys_cons,
        presentKeys_nil, hfo, Option.any]
  | some s =>
      by_cases hs : s = ""
      · subst hs
        simp [CallOptions.dump, keysOf, keysOf_optEntry, map_fst_optEntry, presentKeys_cons,
          presentKeys_nil, hfo, Option.any]
      · simp [CallOptions.dump, keysOf, keysOf_optEntry, map_fst_optEntry, presentKeys_cons,
          presentKeys_nil, hfo, Option.any, hs, keysOf_append]

theorem listOptions_dump_keys (lo : ListOptions) :
    keysOf lo.dump = presentKeys
      [("page", lo.page.isSome), ("limit", lo.limit.isSome),
       ("search", lo.search.isSome), ("status", lo.status.isSome),
       ("sort_by", lo.sort_by.isSome), ("sort_order", lo.sort_order.isSome)] := by
  simp [ListOptions.dump, keysOf, keysOf_optEntry, map_fst_optEntry, presentKeys_cons, presentKeys_nil]

theorem listCallsParams_keys (co : CallListOptions) :
    keysOf (listCallsParams co) = presentKeys
      [("page", co.page.isSome), ("limit", co.limit.isSome),
       ("search", co.search.isSome), ("status", co.status.isSome),
       ("sort_by", co.sort_by.isSome), ("sort_order", co.sort_order.isSome),
       ("agent_id", co.agent_id.isSome), ("to", co.«to».isSome)]
      ++ presentKeys [("from", co.from_.isSome)] := by
  unfold listCallsParams
  cases hfo : co.from_ with
  | none =>
      simp [CallListOptions.dump, ListOptions.dump, keysOf, keysOf_optEntry, map_fst_optEntry,
        presentKeys_cons, presentKeys_nil, hfo]
  | some s =>
      simp only [CallListOptions.dump, ListOptions.dump, hfo, List.filter_append,
        filter_ne_optEntry _ _ (show "page" ≠ "from_" by decide),
        filter_ne_optEntry _ _ (show "limit" ≠ "from_" by decide),
        filter_ne_optEntry _ _ (show "search" ≠ "from_" by decide),
        filter_ne_optEntry _ _ (show "status" ≠ "from_" by decide),
        filter_ne_optEntry _ _ (show "sort_by" ≠ "from_" by decide),
        filter_ne_optEntry _ _ (show "sort_order" ≠ "from_" by decide),
        filter_ne_optEntry _ _ (show "agent_id" ≠ "from_" by decide),
        filter_ne_optEntry _ _ (show "to" ≠ "from_" by decide),
        filter_eq_optEntry]
      simp [keysOf, keysOf_optEntry, map_fst_optEntry, presentKeys_cons, presentKeys_nil]

/-- C6: for every `AgentConfig` and `CallOptions` value, the encoded
request bodies (`create_agent`, `create_call`) and encoded query
mappings (`list_agents`, `list_calls`) contain no key whose value is
the absent (`null`) sentinel, and their key sets are exactly the
required keys plus the keys of the fields that are present: every
absent field is omitted entirely. -/
theorem C6_encoder_omits_absent :
    ∀ (c : AgentConfig) (o : CallOptions) (lo : ListOptions) (co : CallListOptions),
      (∀ kv ∈ c.dump, kv.2 ≠ FieldVal.prim .null)
      ∧ (∀ kv ∈ createCallBody o, kv.2 ≠ FieldVal.prim .null)
      ∧ (∀ kv ∈ listAgentsParams lo, kv.2 ≠ FieldVal.prim .null)
      ∧ (∀ kv ∈ listCallsParams co, kv.2 ≠ FieldVal.prim .null)
      ∧ keysOf c.dump = ["name", "prompt"] ++ presentKeys
          [("voice", c.voice.isSome), ("locale", c.locale.isSome),
           ("temperature", c.temperature.isSome), ("model", c.model.isSome),
           ("max_tokens", c.max_tokens.isSome), ("system_prompt", c.system_prompt.isSome),
           ("tools", c.tools.isSome), ("metadata", c.metadata.isSome)]
      ∧ keysOf (createCallBody o) = ["agent_id", "to"]
          ++ presentKeys [("from_", o.from_.isSome)] ++ ["direction"]
          ++ presentKeys [("metadata", o.metadata.isSome), ("recording", o.recording.isSome),
              ("transcription", o.transcription.isSome)]
          ++ presentKeys [("from", o.from_.any (fun s => !(s = "")))]
      ∧ keysOf (listAgentsParams lo) = presentKeys
          [("page", lo.page.isSome), ("limit", lo.limit.isSome),
           ("search", lo.search.isSome), ("status", lo.status.isSome),
           ("sort_by", lo.sort_by.isSome), ("sort_order", lo.sort_order.isSome)]
      ∧ keysOf (listCallsParams co) = presentKeys
          [("page", co.page.isSome), ("limit", co.limit.isSome),
           ("search", co.search.isSome), ("status", co.status.isSome),
           ("sort_by", co.sort_by.isSome), ("sort_order", co.sort_order.isSome),
           ("agent_id", co.agent_id.isSome), ("to", co.«to».isSome)]
          ++ presentKeys [("from", co.from_.isSome)] :=
  fun c o lo co =>
    ⟨agentConfig_dump_not_null c, createCallBody_not_null o, listOptions_dump_not_null lo,
     listCallsParams_not_null co, agentConfig_dump_keys c, createCallBody_keys o,
     listOptions_dump_keys lo, listCallsParams_keys co⟩

/-- C6 witness: the `list_agents` key-set equation applied at the
all-defaults options value. -/
theorem C6_witness :
    keysOf (listAgentsParams {}) = presentKeys
      [("page", true), ("limit", true), ("search", false), ("status", false),
       ("sort_by", false), ("sort_order", true)] :=
  (C6_encoder_omits_absent { name := "n", prompt := "p" }
    { agent_id := "a", «to» := "+911234567890" } {} {}).2.2.2.2.2.2.1

/-! ## C7 — sequential batch helpers -/

/-- C7: the batch loop shared by `create_multiple_agents` and
`create_multiple_calls` issues the per-item create calls strictly
sequentially in input order: (a) when every call succeeds, every input
is issued and the returned list holds one result per input, in input
order; (b) when the first failure occurs at index `k`, the error
propagates unchanged with no partial result list, exactly the inputs up
to and including index `k` having been issued, and no later input is
ever attempted. -/
theorem C7_batch_sequential {α β : Type} (call : α → Except ClientError β)
    (xs : List α) :
    (∀ g : α → β, (∀ x ∈ xs, call x = .ok (g x)) →
        createSequentially call xs = (xs, .ok (xs.map g)))
    ∧ (∀ (k : Nat) (hk : k < xs.length) (e : ClientError),
        (∀ (j : Nat) (hj : j < k), ∃ b, call (xs.get ⟨j, lt_trans hj hk⟩) = .ok b) →
        call (xs.get ⟨k, hk⟩) = .error e →
        createSequentially call xs = (xs.take (k + 1), .error e))
    ∧ (∀ (ca : AgentConfig → Except ClientError Agent) (configs : List AgentConfig),
        create_multiple_agents ca configs = createSequentially ca configs)
    ∧ (∀ (cc : CallOptions → Except ClientError Payload) (opts : List CallOptions),
        create_multiple_calls cc opts = createSequentially cc opts) := by
  refine ⟨?_, ?_, fun ca configs => rfl, fun cc opts => rfl⟩
  · intro g hg
    induction xs with
    | nil => rfl
    | cons x rest ih =>
        have hx := hg x (List.mem_cons_self x rest)
        simp only [createSequentially, hx]
        rw [ih (fun y hy => hg y (List.mem_cons_of_mem x hy))]
        rfl
  · induction xs with
    | nil =>
        intro k hk
        exact absurd hk (by simp)
    | cons x rest ih =>
        intro k hk e hprev hfail
        cases k with
        | zero =>
            have hfail' : call x = .error e := hfail
            simp [createSequentially, hfail']
        | succ n =>
            obtain ⟨b, hb⟩ : ∃ b, call x = .ok b := hprev 0 (Nat.succ_pos n)
            have hn : n < rest.length := Nat.lt_of_succ_lt_succ hk
            have hfail' : call (rest.get ⟨n, hn⟩) = .error e := hfail
            have hprev' : ∀ (j : Nat) (hj : j < n),
                ∃ b, call (rest.get ⟨j, lt_trans hj hn⟩) = .ok b :=
              fun j hj => hprev (j + 1) (Nat.succ_lt_succ hj)
            simp only [createSequentially, hb]
            rw [ih n hn e hprev' hfail']
            rfl

/-- C7 witness: with a call that fails exactly on input `2`, the batch
over `[0, 1, 2, 3]` issues `0`, `1`, `2`, propagates the failure with
no result list, and never issues `3`. -/
theorem C7_witness :
    createSequentially witnessCall [0, 1, 2, 3]
      = ([0, 1, 2], .error .networkError) := by
  have h := (C7_batch_sequential witnessCall [0, 1, 2, 3]).2.1 2 (by decide)
    .networkError ?_ ?_
  · exact h
  · intro j hj
    interval_cases j
    · exact ⟨1, rfl⟩
    · exact ⟨2, rfl⟩
  · rfl

/-! ## C5 — transport vs validation failure separation -/

/-- C5: for every server response, an HTTP error status (the statuses
`raise_for_status` raises on, 400–599) always surfaces as the transport
error carrying that status and never as the schema-validation error; a
success-status (2xx) response whose parsed body does not decode as an
`Agent` always surfaces as the schema-validation error and never as the
transport error; and no single invocation can be both failure kinds. -/
theorem C5_transport_validation_disjoint :
    ∀ resp : HttpResponse,
      (400 ≤ resp.status ∧ resp.status < 600 →
        get_agent resp = .error (.transportError resp.status)
        ∧ ∀ locs, get_agent resp ≠ .error (.validationError locs))
      ∧ (200 ≤ resp.status ∧ resp.status < 300 →
          ∀ payload, resp.body = some payload →
          ∀ locs, decodeAgent payload = .error locs →
            get_agent resp = .error (.validationError locs)
            ∧ ∀ st, get_agent resp ≠ .error (.transportError st))
      ∧ (∀ st locs, ¬(get_agent resp = .error (.transportError st)
            ∧ get_agent resp = .error (.validationError locs))) := by
  intro resp
  refine ⟨?_, ?_, ?_⟩
  · intro h
    have hmr : makeRequest resp = .error (.transportError resp.status) := by
      unfold makeRequest
      rw [if_pos h]
    constructor
    · unfold get_agent
      rw [hmr]
      rfl
    · intro locs hcon
      unfold get_agent at hcon
      rw [hmr] at hcon
      simp [Except.bind] at hcon
  · rintro ⟨h2, h3⟩ payload hp locs hdec
    have hmr : makeRequest resp = .ok payload := by
      unfold makeRequest
      rw [if_neg (by omega), hp]
    constructor
    · unfold get_agent
      rw [hmr]
      simp [Except.bind, hdec]
    · intro st hcon
      unfold get_agent at hcon
      rw [hmr] at hcon
      simp [Except.bind, hdec] at hcon
  · rintro st locs ⟨h1, h2⟩
    rw [h1] at h2
    exact ClientError.noConfusion (Except.error.inj h2)

/-- C5 witness: a 404 response raises the transport error carrying 404,
and a 200 response whose body is the empty JSON object raises the
validation error listing every missing required field. -/
theorem C5_witness :
    get_agent { status := 404, body := none } = .error (.transportError 404)
    ∧ get_agent { status := 200, body := some [] }
        = .error (.validationError
            ["id", "name", "config", "status", "tenant_id", "created_at", "updated_at"]) :=
  ⟨((C5_transport_validation_disjoint _).1 (by decide)).1,
   ((C5_transport_validation_disjoint _).2.1 (by decide) [] rfl
      ["id", "name", "config", "status", "tenant_id", "created_at", "updated_at"]
      (by rfl)).1⟩

/-! ## C8 — encode/decode round-trip -/

set_option maxHeartbeats 1600000 in
theorem decodeAgentConfig_dump (c : AgentConfig)
    (hl : c.locale ≠ none) (ht : c.temperature ≠ none)
    (hm : c.model ≠ none) (hx : c.max_tokens ≠ none) :
    decodeAgentConfig c.dump = .ok c := by
  obtain ⟨n, p, voice, locale, temp, mdl, maxtok, sys, tls, meta⟩ := c
  cases locale with
  | none => exact absurd rfl hl
  | some lv =>
      cases temp with
      | none => exact absurd rfl ht
      | some tv =>
          cases mdl with
          | none => exact absurd rfl hm
          | some mv =>
              cases maxtok with
              | none => exact absurd rfl hx
              | some xv =>
                  cases voice <;> cases sys <;> cases tls <;> cases meta <;> rfl

/-- C8 counterexample: for the `AgentConfig` whose `locale` field is
explicitly absent, encoding omits the `locale` key, and decoding the
server echo resurrects the declared default `"en-IN"`: the round-trip
decodes successfully but yields a config different from the original
(the field that was `None` is now `"en-IN"`). -/
theorem C8_counterexample :
    decodeAgent (echoAgentPayload "ag_1" "n"
        { name := "n", prompt := "p", locale := none } "active" "t" "c" "u")
      = .ok { id := "ag_1", name := "n",
              config := { name := "n", prompt := "p" },
              status := .active, tenant_id := "t", created_at := "c", updated_at := "u" }
    ∧ ({ name := "n", prompt := "p" } : AgentConfig)
        ≠ { name := "n", prompt := "p", locale := none } := by
  constructor
  · rfl
  · decide

/-- C8 (amended): for every `AgentConfig` whose defaulted optional
fields (`locale`, `temperature`, `model`, `max_tokens`) are not
explicitly absent, encoding it as `create_agent` does and decoding an
`Agent` payload whose `config` field is exactly that encoded mapping (a
server echo) yields an `Agent` whose `config` equals the original
field-for-field. -/
theorem C8_roundtrip_preserved (c : AgentConfig)
    (idv nm statusStr tid ca ua : String) (st : AgentStatus)
    (hl : c.locale ≠ none) (ht : c.temperature ≠ none)
    (hm : c.model ≠ none) (hx : c.max_tokens ≠ none)
    (hs : parseAgentStatus statusStr = some st) :
    decodeAgent (echoAgentPayload idv nm c statusStr tid ca ua)
      = .ok { id := idv, name := nm, config := c, status := st,
              tenant_id := tid, created_at := ca, updated_at := ua, stats := none } := by
  have hc := decodeAgentConfig_dump c hl ht hm hx
  have h3 : configField (echoAgentPayload idv nm c statusStr tid ca ua) = .ok c := by
    unfold configField
    rw [show getTop (echoAgentPayload idv nm c statusStr tid ca ua) "config"
      = some (.nested c.dump) from rfl]
    simp [hc]
  have h4 : statusField (echoAgentPayload idv nm c statusStr tid ca ua) = .ok st := by
    unfold statusField
    rw [show getTop (echoAgentPayload idv nm c statusStr tid ca ua) "status"
      = some (.fld (.prim (.str statusStr))) from rfl]
    simp [hs]
  unfold decodeAgent
  rw [h3, h4]
  rfl

/-- C8 witness: the round-trip applied to a config built with the
declared defaults. -/
theorem C8_witness :
    decodeAgent (echoAgentPayload "ag_1" "n"
        { name := "n", prompt := "p" } "active" "t" "c" "u")
      = .ok { id := "ag_1", name := "n", config := { name := "n", prompt := "p" },
              status := .active, tenant_id := "t", created_at := "c", updated_at := "u",
              stats := none } :=
  C8_roundtrip_preserved { name := "n", prompt := "p" } "ag_1" "n" "active" "t" "c" "u"
    .active (by decide) (by decide) (by decide) (by decide) rfl

/-! ## C9 — non-blocking mirrors -/

/-- C9 counterexample: the synchronous façade exposes
`create_multiple_agents` (a §4.5 façade operation), but the
asynchronous client has no `create_multiple_agents_async` coroutine, so
not every façade operation has a non-blocking mirror under the `_async`
suffix convention. -/
theorem C9_counterexample :
    "create_multiple_agents" ∈ syncFacadeOps
    ∧ ("create_multiple_agents" ++ "_async") ∉ asyncClientOps := by
  decide

/-- C9 (amended): every single-request façade operation — all of them
except the two batch helpers and the two pure phone utilities — has a
non-blocking mirror under the `_async` suffix convention, and each
mirror dispatches the identical blocking callable to a worker, so the
awaited result (value or failure alike) is exactly the blocking call's
result; in particular `get_agent_async` agrees with `get_agent` on
every response. -/
theorem C9_async_mirrors :
    (∀ op ∈ mirroredOps, op ∈ syncFacadeOps ∧ (op ++ "_async") ∈ asyncClientOps)
    ∧ (∀ (α β : Type) (f : α → β) (a : α), runInExecutor f a = f a)
    ∧ (∀ resp : HttpResponse, get_agent_async resp = get_agent resp) :=
  ⟨by decide, fun α β f a => rfl, fun resp => rfl⟩

/-- C9 witness: the mirroring applied at `get_agent`. -/
theorem C9_witness :
    "get_agent" ∈ syncFacadeOps ∧ ("get_agent" ++ "_async") ∈ asyncClientOps :=
  C9_async_mirrors.1 "get_agent" (by decide)

end Invorto
